import Mathlib

/-!
Verification of the load/open orchestration core of the PhotoSwipe
lightbox (`src/js/lightbox/lightbox.js`).

The JavaScript class `PhotoSwipeLightbox` is shallowly embedded as a pure
state-transition system: the instance fields (together with the process-wide
global `window.pswp` slot that the class reads and writes) form a `State`,
every method becomes a Lean function on `State`, and the asynchronous
continuation installed by `preload` (the `.then` callback of the
`Promise.all` join) becomes a separate function `joinSettle` that is applied
later, to whatever state the instance has reached by the time the join
settles, with the token `uid` it captured at registration time.

External collaborators that live outside `src/` (the DOM structural queries,
`specialKeyUsed` from `util.js`, the dynamic-import and CSS loaders, the
viewer engine itself) are modelled at their interface boundary, as the
specification describes them.
-/

namespace PhotoSwipeLightbox

/-- A DOM element, identified abstractly. -/
abbrev Elem := Nat

/-- An opaque data source value (`dataSource` is passed through unchanged). -/
abbrev DataSource := Nat

/-- A pointer position (`{ x: e.clientX, y: e.clientY }`). -/
structure Point where
  x : Int
  y : Int
  deriving DecidableEq, Repr

/-- The main engine module reference, as resolved by `dynamicImportModule`:
`typeof module === "object"` distinguishes a namespace object exposing a
`default` constructor from a directly usable constructor. -/
inductive Module where
  | objDefault (cls : Nat)
  | ctorFn (cls : Nat)
  deriving DecidableEq, Repr

/-- The constructor class a resolved main module designates
(`module.default` for a namespace object, `module` itself otherwise). -/
def Module.viewerClass : Module → Nat
  | .objDefault cls => cls
  | .ctorFn cls => cls

/-- A plugin reference held in `_pluginClasses`: either an already-resolved
class or a path string to a module (`addPlugin` accepts both). -/
inductive PluginRef where
  | cls (id : Nat)
  | path (href : String)
  deriving DecidableEq, Repr

/-- JavaScript truthiness of a plugin reference: a class object is always
truthy; a path string is truthy when nonempty. -/
def PluginRef.truthy : PluginRef → Bool
  | .cls _ => true
  | .path href => href ≠ ""

/-- An activation event, read-only input of the click handler. -/
structure Event where
  target : Elem
  currentTarget : Elem
  clientX : Int
  clientY : Int
  which : Nat
  ctrlKey : Bool
  metaKey : Bool
  altKey : Bool
  shiftKey : Bool

/-- Modelled from the spec: `specialKeyUsed` lives in `src/js/util/util.js`,
which is not under `src/`; the spec describes it as "a modifier/special key
was held at activation time" (middle button or ctrl/cmd/alt/shift). -/
def specialKeyUsed (e : Event) : Bool :=
  e.which == 2 || e.ctrlKey || e.metaKey || e.altKey || e.shiftKey

/-- Modelled from the spec: the DOM structural queries used by the Index
Resolver (`Element.closest` and `Element.querySelectorAll`), specified only
at their interface boundary ("the specific DOM traversal used to find a
closest matching child" is out of scope). -/
structure Dom where
  closest : Elem → String → Option Elem
  querySelectorAll : Elem → String → List Elem

/-- The recognized configuration options (the `options` object). Absent
(`undefined`) fields are `none`; `preloadFirstSlide` keeps its JavaScript
tri-state (`undefined` / `true` / `false`) because the code tests
`options.preloadFirstSlide !== false`. -/
structure Options where
  gallerySelector : Option String := none
  childSelector : Option String := none
  getClickedIndexFn : Option (Event → Option Int) := none
  pswpModule : Module
  pswpCSS : Option String := none
  openPromise : Option Nat := none
  preloadFirstSlide : Option Bool := none
  index : Int := 0
  initialPointerPos : Option Point := none
  dataSource : Option DataSource := none

/-- A constructed viewer instance (`new module(null, options)` plus the
fields the lightbox assigns onto it before calling `init`). -/
structure Viewer where
  cls : Nat
  options : Options
  pluginClasses : List (String × PluginRef)
  handlers : List (String × Nat)

/-- The orchestrator state: the `PhotoSwipeLightbox` instance fields,
together with the global singleton slot `window.pswp` that the class reads
and writes. `_listeners` comes from `PhotoSwipeBase` (outside `src/`,
modelled from the spec as a listener table, nulled by `destroy`). -/
structure State where
  options : Options
  _additionalDynamicCSS : List String
  _pluginClasses : List (String × PluginRef)
  _uid : Nat
  shouldOpen : Bool
  pswp : Option Viewer
  windowPswp : Option Viewer
  _listeners : Option (List (String × Nat))

/-- `this._pluginClasses[name] = ref` on an insertion-ordered object:
overwrite in place when the key exists, append otherwise. -/
def setPlugin : List (String × PluginRef) → String → PluginRef → List (String × PluginRef)
  | [], name, ref => [(name, ref)]
  | (k, v) :: rest, name, ref =>
      if k = name then (k, ref) :: rest else (k, v) :: setPlugin rest name ref

/-- `addPlugin(name, pluginClass)` (line 241). -/
def addPlugin (s : State) (name : String) (pluginClass : PluginRef) : State :=
  { s with _pluginClasses := setPlugin s._pluginClasses name pluginClass }

/-- `addCSS(href)` (line 250). -/
def addCSS (s : State) (href : String) : State :=
  { s with _additionalDynamicCSS := s._additionalDynamicCSS ++ [href] }

/-- One asynchronous resource acquisition started by `preload`. The
`warmup` constructor stands for the `lazyLoadSlide` first-slide warm-up; it
exists in the type so that its absence from the awaited join can be stated. -/
inductive Acq where
  | mainModule (m : Module)
  | plugin (pluginKey : String) (ref : PluginRef)
  | openPromise (id : Nat)
  | css (href : String)
  | warmup (index : Int)
  deriving DecidableEq, Repr

/-- What `preload` does synchronously: the updated state, the token `uid` it
captured for its continuation, the array of awaited acquisitions handed to
`Promise.all`, and whether the fire-and-forget `lazyLoadSlide` warm-up was
started. -/
structure PreloadResult where
  state : State
  uid : Nat
  promiseArray : List Acq
  warmupStarted : Bool

/-- `preload(index, dataSource)` (lines 138-190), synchronous part: merge
the data source, assemble the promise array (main module, one import per
registry entry, the custom open promise, main CSS, additional CSS), start
the warm-up when `preloadFirstSlide !== false && index >= 0`, and capture
`uid = ++this._uid`. The `.then` continuation is `joinSettle` below. -/
def preload (s : State) (index : Int) (dataSource : Option DataSource) : PreloadResult :=
  let options := s.options
  let options := match dataSource with
    | some ds => { options with dataSource := some ds }
    | none => options
  let promiseArray := [Acq.mainModule options.pswpModule]
  let promiseArray := promiseArray ++
    s._pluginClasses.map (fun kv => Acq.plugin kv.1 kv.2)
  let promiseArray := promiseArray ++
    (match options.openPromise with
     | some id => [Acq.openPromise id]
     | none => [])
  let warmupStarted := options.preloadFirstSlide ≠ some false ∧ 0 ≤ index
  let promiseArray := promiseArray ++
    (match options.pswpCSS with
     | some href => if href = "" then [] else [Acq.css href]
     | none => [])
  let promiseArray := promiseArray ++ s._additionalDynamicCSS.map Acq.css
  let uid := s._uid + 1
  { state := { s with options := options, _uid := uid }
    uid := uid
    promiseArray := promiseArray
    warmupStarted := warmupStarted }

/-- `loadAndOpen(index, dataSource, initialPoint)` (lines 116-131): the
boolean it returns and the acquisitions it starts, alongside the new state. -/
structure LoadAndOpenResult where
  state : State
  returned : Bool
  started : List Acq

/-- `loadAndOpen` rejects when `window.pswp` is occupied; otherwise it sets
`options.index` and `options.initialPointerPos`, sets `shouldOpen = true`,
and runs `preload`. -/
def loadAndOpen (s : State) (index : Int) (dataSource : Option DataSource)
    (initialPoint : Option Point) : LoadAndOpenResult :=
  if s.windowPswp.isSome then
    { state := s, returned := false, started := [] }
  else
    let s := { s with
               options := { s.options with
                            index := index, initialPointerPos := initialPoint },
               shouldOpen := true }
    let r := preload s index dataSource
    { state := r.state
      returned := true
      started := r.promiseArray ++ (if r.warmupStarted then [Acq.warmup index] else []) }

/-- The viewer instance the Open Gate constructs and publishes (lines
210-224): `new module(null, this.options)` (unwrapping `module.default` for
a namespace object), with `pluginClasses` attached and the registered
cross-cutting listeners replayed onto it. -/
def constructViewer (s : State) (module : Module) : Viewer :=
  { cls := module.viewerClass
    options := s.options
    pluginClasses := s._pluginClasses
    handlers := s._listeners.getD [] }

/-- `_openPhotoswipe(module, uid)` (lines 192-233). Returns the new state
and whether a viewer instance was constructed. Note the guard is the
source's literal `uid !== this._uid && this.shouldOpen`. -/
def openPhotoswipe (s : State) (module : Module) (uid : Nat) : State × Bool :=
  if uid ≠ s._uid ∧ s.shouldOpen then
    (s, false)
  else
    let s := { s with shouldOpen := false }
    if s.windowPswp.isSome then
      (s, false)
    else
      let pswp : Viewer := constructViewer s module
      ({ s with pswp := some pswp, windowPswp := some pswp }, true)

/-- One settled item of the `Promise.all` join: the resolved main module
(position 0), a resolved `{pluginKey, moduleClass}` pair from
`dynamicImportPlugin` (modelled from the spec: "Plugin acquisition resolves
to a `\x7bname, reference\x7d` pair or is absent"), or a meaningless value (CSS
loads, the custom open promise). -/
inductive JoinItem where
  | mainModule (m : Module)
  | pluginPair (pluginKey : String) (moduleClass : PluginRef)
  | unitResult
  deriving DecidableEq, Repr

/-- How the `Promise.all` join settles: rejected, or fulfilled with the
array of item results. -/
inductive JoinResult where
  | failure
  | success (iterableModules : List JoinItem)
  deriving DecidableEq, Repr

/-- The write-back loop of the `.then` callback (lines 179-183): every item
with a truthy `pluginKey` and `moduleClass` is stored into
`_pluginClasses` under its key. -/
def mergePlugins (reg : List (String × PluginRef)) :
    List JoinItem → List (String × PluginRef)
  | [] => reg
  | JoinItem.pluginPair k v :: rest =>
      if k ≠ "" ∧ v.truthy then mergePlugins (setPlugin reg k v) rest
      else mergePlugins reg rest
  | _ :: rest => mergePlugins reg rest

/-- `iterableModules[0]`, which `preload` always makes the main-module
import's result. -/
def mainModuleOf : List JoinItem → Option Module
  | JoinItem.mainModule m :: _ => some m
  | _ => none

/-- The `.then` continuation registered by `preload` (lines 178-189),
executed when the join settles against the state current at that moment,
with the `uid` captured at registration. A rejected join runs nothing:
no rejection handler is installed. Returns the new state and whether a
viewer was constructed. -/
def joinSettle (s : State) (uid : Nat) : JoinResult → State × Bool
  | JoinResult.failure => (s, false)
  | JoinResult.success iterableModules =>
      let s := { s with _pluginClasses := mergePlugins s._pluginClasses iterableModules }
      if s.shouldOpen then
        match mainModuleOf iterableModules with
        | some mainModule => openPhotoswipe s mainModule uid
        | none => (s, false)
      else
        (s, false)

/-- `getClickedIndex(e)` (lines 84-107): delegate to
`options.getClickedIndexFn` when configured; else with a `childSelector`,
locate `e.target.closest(childSelector)` among
`e.currentTarget.querySelectorAll(childSelector)` (first identity match,
0-based), falling off the function (`undefined`, here `none`) when nothing
matches; else return `0`. Total: it never throws. -/
def getClickedIndex (dom : Dom) (s : State) (e : Event) : Option Int :=
  match s.options.getClickedIndexFn with
  | some f => f e
  | none =>
    match s.options.childSelector with
    | some sel =>
        if sel = "" then some 0  -- an empty selector string is falsy in JS
        else
          let clickedChild := dom.closest e.target sel
          let childElements := dom.querySelectorAll e.currentTarget sel
          match clickedChild with
          | some c => (childElements.findIdx? (fun x => x = c)).map Int.ofNat
          | none => none
    | none => some 0

/-- The outcome of the activation handler: the state it leaves behind,
whether `e.preventDefault()` was called, and the acquisitions started. -/
structure ClickOutcome where
  state : State
  preventDefaultCalled : Bool
  started : List Acq

/-- `onThumbnailsClick(e)` (lines 47-77). Pass through (no side effects)
when a special key was used, `window.pswp` is occupied, or
`navigator.onLine === false`; otherwise resolve the index and, when it is
`>= 0`, call `preventDefault` and `loadAndOpen`. -/
def onThumbnailsClick (dom : Dom) (onLine : Option Bool) (s : State) (e : Event) :
    ClickOutcome :=
  if specialKeyUsed e || s.windowPswp.isSome || onLine == some false then
    { state := s, preventDefaultCalled := false, started := [] }
  else
    let initialPoint : Option Point :=
      if e.clientX = 0 ∧ e.clientY = 0 then none
      else some { x := e.clientX, y := e.clientY }
    let clickedIndex := getClickedIndex dom s e
    let dataSource : DataSource := e.currentTarget
    match clickedIndex with
    | some i =>
        if 0 ≤ i then
          let r := loadAndOpen s i (some dataSource) initialPoint
          { state := r.state, preventDefaultCalled := true, started := r.started }
        else
          { state := s, preventDefaultCalled := false, started := [] }
    | none => { state := s, preventDefaultCalled := false, started := [] }

/-- The one-shot `destroy` handler the Open Gate registers on the viewer
(lines 226-230): clears `this.pswp` and `window.pswp`. -/
def destroyNotify (s : State) : State :=
  { s with pswp := none, windowPswp := none }

/-- `destroy()` (lines 254-266): request close on the open viewer (the
close itself is the viewer's, outside this core; the slot is cleared only
by the viewer's own destroy handler, `destroyNotify`), reset `shouldOpen`,
null the listener table, unbind the click handlers. -/
def destroy (s : State) : State :=
  { s with shouldOpen := false, _listeners := none }

/-- `constructor(options)` (lines 27-33): fresh fields, `_uid = 0`;
`shouldOpen` and `pswp` start `undefined` (falsy); `_listeners` is the empty
table installed by `PhotoSwipeBase`; the page-global `window.pswp` slot is
taken empty. -/
def construct (options : Options) : State :=
  { options := options
    _additionalDynamicCSS := []
    _pluginClasses := []
    _uid := 0
    shouldOpen := false
    pswp := none
    windowPswp := none
    _listeners := some [] }

/-- The environment an orchestrator runs against: the DOM queries and the
`navigator.onLine` report. -/
structure Env where
  dom : Dom
  onLine : Option Bool

/-- One event-loop turn acting on the orchestrator: a public method call, a
dispatched click, the settling of a registered join continuation, or the
viewer's destroy handler firing. This is the surface across which the
reachable-state invariants are stated. -/
inductive Op where
  | click (e : Event)
  | loadAndOpenOp (index : Int) (dataSource : Option DataSource) (initialPoint : Option Point)
  | preloadOp (index : Int) (dataSource : Option DataSource)
  | joinSettleOp (uid : Nat) (r : JoinResult)
  | destroyNotifyOp
  | addPluginOp (name : String) (pluginClass : PluginRef)
  | addCSSOp (href : String)
  | destroyOp

/-- The state reached after one turn. -/
def step (env : Env) (s : State) : Op → State
  | Op.click e => (onThumbnailsClick env.dom env.onLine s e).state
  | Op.loadAndOpenOp i d p => (loadAndOpen s i d p).state
  | Op.preloadOp i d => (preload s i d).state
  | Op.joinSettleOp uid r => (joinSettle s uid r).1
  | Op.destroyNotifyOp => destroyNotify s
  | Op.addPluginOp n c => addPlugin s n c
  | Op.addCSSOp h => addCSS s h
  | Op.destroyOp => destroy s

/-- The token captured by the `preload` invocation (if any) a turn performs:
a direct `preload` call always captures one; `loadAndOpen` and an
intercepting click capture one exactly when they reach `preload`. -/
def tokensOfOp (env : Env) (s : State) : Op → List Nat
  | Op.click e =>
      let r := onThumbnailsClick env.dom env.onLine s e
      if r.preventDefaultCalled then [(step env s (Op.click e))._uid] else []
  | Op.loadAndOpenOp i d p =>
      if (loadAndOpen s i d p).returned then [(loadAndOpen s i d p).state._uid] else []
  | Op.preloadOp i d => [(preload s i d).uid]
  | _ => []

/-- The tokens captured by the successive `preload` invocations of a run,
in order. -/
def capturedTokens (env : Env) : State → List Op → List Nat
  | _, [] => []
  | s, op :: ops => tokensOfOp env s op ++ capturedTokens env (step env s op) ops

/-! Concrete fixtures used by the closed witness and counterexample
theorems. -/

/-- A minimal configuration: just a main module. -/
def opts0 : Options := { pswpModule := Module.ctorFn 7 }

/-- A trivial DOM: nothing matches. -/
def dom0 : Dom := { closest := fun _ _ => none, querySelectorAll := fun _ _ => [] }

/-- A default environment: online, trivial DOM. -/
def env0 : Env := { dom := dom0, onLine := some true }

/-- A viewer instance used to populate the global slot in fixtures. -/
def viewer0 : Viewer :=
  { cls := 7, options := opts0, pluginClasses := [], handlers := [] }

/-! Projection lemmas about the synchronous part of `preload`. -/

@[simp] lemma preload_state_uid (s : State) (i : Int) (d : Option DataSource) :
    (preload s i d).state._uid = s._uid + 1 := rfl

@[simp] lemma preload_uid (s : State) (i : Int) (d : Option DataSource) :
    (preload s i d).uid = s._uid + 1 := rfl

@[simp] lemma preload_state_windowPswp (s : State) (i : Int) (d : Option DataSource) :
    (preload s i d).state.windowPswp = s.windowPswp := rfl

@[simp] lemma preload_state_shouldOpen (s : State) (i : Int) (d : Option DataSource) :
    (preload s i d).state.shouldOpen = s.shouldOpen := rfl

@[simp] lemma preload_state_pswp (s : State) (i : Int) (d : Option DataSource) :
    (preload s i d).state.pswp = s.pswp := rfl

@[simp] lemma preload_state_pluginClasses (s : State) (i : Int) (d : Option DataSource) :
    (preload s i d).state._pluginClasses = s._pluginClasses := rfl

lemma preload_state_options_index (s : State) (i : Int) (d : Option DataSource) :
    (preload s i d).state.options.index = s.options.index := by
  cases d <;> rfl

lemma preload_state_options_initialPointerPos (s : State) (i : Int) (d : Option DataSource) :
    (preload s i d).state.options.initialPointerPos = s.options.initialPointerPos := by
  cases d <;> rfl

/-! Projection lemmas about `loadAndOpen`. -/

lemma loadAndOpen_windowPswp (s : State) (i : Int) (d : Option DataSource)
    (p : Option Point) : (loadAndOpen s i d p).state.windowPswp = s.windowPswp := by
  unfold loadAndOpen
  split <;> simp

lemma loadAndOpen_uid (s : State) (i : Int) (d : Option DataSource) (p : Option Point) :
    (loadAndOpen s i d p).state._uid = if (loadAndOpen s i d p).returned then s._uid + 1 else s._uid := by
  unfold loadAndOpen
  split <;> simp

/-! Projection lemmas about `onThumbnailsClick`. -/

lemma onThumbnailsClick_windowPswp (dom : Dom) (onLine : Option Bool) (s : State)
    (e : Event) :
    (onThumbnailsClick dom onLine s e).state.windowPswp = s.windowPswp := by
  unfold onThumbnailsClick
  split
  · rfl
  · dsimp only
    cases hgi : getClickedIndex dom s e with
    | none => simp [hgi]
    | some i =>
        simp only [hgi]
        split
        · simp [loadAndOpen_windowPswp]
        · rfl

lemma onThumbnailsClick_uid (dom : Dom) (onLine : Option Bool) (s : State) (e : Event) :
    (onThumbnailsClick dom onLine s e).state._uid =
      if (onThumbnailsClick dom onLine s e).preventDefaultCalled then s._uid + 1
      else s._uid := by
  unfold onThumbnailsClick
  split
  · rfl
  · next hpass =>
      have hslot : s.windowPswp.isSome = false := by
        simp only [Bool.or_eq_true, not_or] at hpass
        simpa using hpass.1.2
      dsimp only
      cases hgi : getClickedIndex dom s e with
      | none => simp [hgi]
      | some i =>
          simp only [hgi]
          split
          · simp [loadAndOpen, hslot]
          · simp

/-! Projection lemmas about `openPhotoswipe` and `joinSettle`. -/

lemma openPhotoswipe_pluginClasses (s : State) (m : Module) (uid : Nat) :
    (openPhotoswipe s m uid).1._pluginClasses = s._pluginClasses := by
  unfold openPhotoswipe
  split
  · rfl
  · dsimp only
    split <;> rfl

lemma openPhotoswipe_constructed_slot_empty (s : State) (m : Module) (uid : Nat)
    (h : (openPhotoswipe s m uid).2 = true) : s.windowPswp = none := by
  unfold openPhotoswipe at h
  split at h
  · simp at h
  · dsimp only at h
    split at h
    · simp at h
    · next hocc =>
        cases hs : s.windowPswp with
        | none => rfl
        | some v => simp [hs] at hocc

lemma openPhotoswipe_slot (s : State) (m : Module) (uid : Nat) :
    (openPhotoswipe s m uid).1.windowPswp = s.windowPswp ∨
      (s.windowPswp = none ∧ ((openPhotoswipe s m uid).1.windowPswp).isSome = true) := by
  unfold openPhotoswipe
  split
  · exact Or.inl rfl
  · dsimp only
    split
    · exact Or.inl rfl
    · next hocc =>
        refine Or.inr ⟨?_, rfl⟩
        cases hs : s.windowPswp with
        | none => rfl
        | some v => simp [hs] at hocc

@[simp] lemma joinSettle_failure (s : State) (uid : Nat) :
    joinSettle s uid JoinResult.failure = (s, false) := rfl

lemma joinSettle_slot (s : State) (uid : Nat) (r : JoinResult) :
    (joinSettle s uid r).1.windowPswp = s.windowPswp ∨
      (s.windowPswp = none ∧ (((joinSettle s uid r).1.windowPswp)).isSome = true) := by
  cases r with
  | failure => exact Or.inl rfl
  | success mods =>
      unfold joinSettle
      dsimp only
      split
      · cases hmm : mainModuleOf mods with
        | none => exact Or.inl rfl
        | some m => exact openPhotoswipe_slot _ m uid
      · exact Or.inl rfl

lemma openPhotoswipe_uid (s : State) (m : Module) (uid : Nat) :
    (openPhotoswipe s m uid).1._uid = s._uid := by
  unfold openPhotoswipe
  split
  · rfl
  · dsimp only
    split <;> rfl

lemma joinSettle_uid (s : State) (uid : Nat) (r : JoinResult) :
    (joinSettle s uid r).1._uid = s._uid := by
  cases r with
  | failure => rfl
  | success mods =>
      unfold joinSettle
      dsimp only
      split
      · cases hmm : mainModuleOf mods with
        | none => rfl
        | some m => exact openPhotoswipe_uid _ m uid
      · rfl

/-- The load token never decreases across any turn. -/
lemma step_uid_le (env : Env) (s : State) (op : Op) : s._uid ≤ (step env s op)._uid := by
  cases op with
  | click e =>
      rw [step, onThumbnailsClick_uid]
      split <;> omega
  | loadAndOpenOp i d p =>
      rw [step, loadAndOpen_uid]
      split <;> omega
  | preloadOp i d => simp [step]
  | joinSettleOp uid r =>
      rw [step, joinSettle_uid]
  | destroyNotifyOp => exact Nat.le_refl _
  | addPluginOp n c => exact Nat.le_refl _
  | addCSSOp h => exact Nat.le_refl _
  | destroyOp => exact Nat.le_refl _

/-- Any token captured by a turn exceeds the token counter before the turn
and is bounded by the counter after it. -/
lemma tokensOfOp_mem (env : Env) (s : State) (op : Op) (t : Nat)
    (ht : t ∈ tokensOfOp env s op) : s._uid < t ∧ t ≤ (step env s op)._uid := by
  cases op with
  | click e =>
      simp only [tokensOfOp] at ht
      split at ht
      · next hpd =>
          rw [List.mem_singleton] at ht
          subst ht
          refine ⟨?_, Nat.le_refl _⟩
          rw [step, onThumbnailsClick_uid, if_pos hpd]
          omega
      · simp at ht
  | loadAndOpenOp i d p =>
      simp only [tokensOfOp] at ht
      split at ht
      · next hret =>
          rw [List.mem_singleton] at ht
          subst ht
          have h := loadAndOpen_uid s i d p
          rw [if_pos hret] at h
          rw [step, h]
          omega
      · simp at ht
  | preloadOp i d =>
      simp only [tokensOfOp] at ht
      rw [List.mem_singleton] at ht
      subst ht
      simp [step]
  | joinSettleOp uid r => simp [tokensOfOp] at ht
  | destroyNotifyOp => simp [tokensOfOp] at ht
  | addPluginOp n c => simp [tokensOfOp] at ht
  | addCSSOp h => simp [tokensOfOp] at ht
  | destroyOp => simp [tokensOfOp] at ht

/-- A single turn captures at most one token, so its token list is trivially
strictly sorted. -/
lemma tokensOfOp_pairwise (env : Env) (s : State) (op : Op) :
    List.Pairwise (· < ·) (tokensOfOp env s op) := by
  cases op with
  | click e =>
      simp only [tokensOfOp]
      split <;> simp
  | loadAndOpenOp i d p =>
      simp only [tokensOfOp]
      split <;> simp
  | preloadOp i d => simp [tokensOfOp]
  | joinSettleOp uid r => simp [tokensOfOp]
  | destroyNotifyOp => simp [tokensOfOp]
  | addPluginOp n c => simp [tokensOfOp]
  | addCSSOp h => simp [tokensOfOp]
  | destroyOp => simp [tokensOfOp]

/-- Every token captured during a run exceeds the counter at the start of
the run. -/
lemma capturedTokens_gt (env : Env) :
    ∀ (ops : List Op) (s : State) (t : Nat), t ∈ capturedTokens env s ops → s._uid < t := by
  intro ops
  induction ops with
  | nil =>
      intro s t ht
      simp [capturedTokens] at ht
  | cons op ops ih =>
      intro s t ht
      rw [capturedTokens] at ht
      rcases List.mem_append.mp ht with h | h
      · exact (tokensOfOp_mem env s op t h).1
      · exact Nat.lt_of_le_of_lt (step_uid_le env s op) (ih _ t h)

/-- The tokens captured during a run are strictly increasing. -/
lemma capturedTokens_pairwise (env : Env) :
    ∀ (ops : List Op) (s : State), List.Pairwise (· < ·) (capturedTokens env s ops) := by
  intro ops
  induction ops with
  | nil =>
      intro s
      simp [capturedTokens]
  | cons op ops ih =>
      intro s
      rw [capturedTokens]
      refine List.pairwise_append.mpr ⟨tokensOfOp_pairwise env s op, ih _, ?_⟩
      intro a ha b hb
      have h1 := (tokensOfOp_mem env s op a ha).2
      have h2 := capturedTokens_gt env ops (step env s op) b hb
      omega

/-! Characterization lemmas for the Open Gate branches. -/

lemma openPhotoswipe_stale (s : State) (m : Module) (uid : Nat)
    (h : uid ≠ s._uid ∧ s.shouldOpen = true) :
    openPhotoswipe s m uid = (s, false) := by
  unfold openPhotoswipe
  rw [if_pos h]

lemma openPhotoswipe_occupied (s : State) (m : Module) (uid : Nat)
    (hg : ¬(uid ≠ s._uid ∧ s.shouldOpen = true)) (hocc : s.windowPswp.isSome = true) :
    openPhotoswipe s m uid = ({ s with shouldOpen := false }, false) := by
  unfold openPhotoswipe
  rw [if_neg hg]
  dsimp only
  rw [if_pos hocc]

lemma openPhotoswipe_admitted (s : State) (m : Module) (uid : Nat)
    (hg : ¬(uid ≠ s._uid ∧ s.shouldOpen = true)) (hslot : s.windowPswp = none) :
    openPhotoswipe s m uid =
      ({ s with
          shouldOpen := false,
          pswp := some (constructViewer { s with shouldOpen := false } m),
          windowPswp := some (constructViewer { s with shouldOpen := false } m) }, true) := by
  unfold openPhotoswipe
  rw [if_neg hg]
  dsimp only
  rw [if_neg (by simp [hslot])]

lemma openPhotoswipe_constructed_viewer (s : State) (m : Module) (uid : Nat)
    (h : (openPhotoswipe s m uid).2 = true) :
    ∃ v : Viewer,
      (openPhotoswipe s m uid).1.windowPswp = some v ∧
      (openPhotoswipe s m uid).1.pswp = some v ∧
      v.pluginClasses = s._pluginClasses ∧ v.options = s.options ∧
      v.cls = m.viewerClass := by
  by_cases hg : uid ≠ s._uid ∧ s.shouldOpen = true
  · rw [openPhotoswipe_stale s m uid hg] at h
    simp at h
  · cases hslot : s.windowPswp with
    | some v =>
        rw [openPhotoswipe_occupied s m uid hg (by simp [hslot])] at h
        simp at h
    | none =>
        rw [openPhotoswipe_admitted s m uid hg hslot]
        exact ⟨_, rfl, rfl, rfl, rfl, rfl⟩

/-! Characterization lemmas for the join continuation. -/

lemma joinSettle_success_open (s : State) (uid : Nat) (mods : List JoinItem) (m : Module)
    (hso : s.shouldOpen = true) (hmm : mainModuleOf mods = some m) :
    joinSettle s uid (JoinResult.success mods) =
      openPhotoswipe { s with _pluginClasses := mergePlugins s._pluginClasses mods } m uid := by
  unfold joinSettle
  dsimp only
  rw [if_pos hso, hmm]

lemma joinSettle_success_nomain (s : State) (uid : Nat) (mods : List JoinItem)
    (hso : s.shouldOpen = true) (hmm : mainModuleOf mods = none) :
    joinSettle s uid (JoinResult.success mods) =
      ({ s with _pluginClasses := mergePlugins s._pluginClasses mods }, false) := by
  unfold joinSettle
  dsimp only
  rw [if_pos hso, hmm]

lemma joinSettle_success_skip (s : State) (uid : Nat) (mods : List JoinItem)
    (hso : s.shouldOpen = false) :
    joinSettle s uid (JoinResult.success mods) =
      ({ s with _pluginClasses := mergePlugins s._pluginClasses mods }, false) := by
  unfold joinSettle
  dsimp only
  rw [if_neg (by simp [hso])]

lemma joinSettle_pluginClasses (s : State) (uid : Nat) (mods : List JoinItem) :
    (joinSettle s uid (JoinResult.success mods)).1._pluginClasses =
      mergePlugins s._pluginClasses mods := by
  cases hso : s.shouldOpen with
  | false => rw [joinSettle_success_skip s uid mods hso]
  | true =>
      cases hmm : mainModuleOf mods with
      | none => rw [joinSettle_success_nomain s uid mods hso hmm]
      | some m =>
          rw [joinSettle_success_open s uid mods m hso hmm]
          exact openPhotoswipe_pluginClasses _ m uid

lemma joinSettle_constructed_viewer (s : State) (uid : Nat) (mods : List JoinItem)
    (h : (joinSettle s uid (JoinResult.success mods)).2 = true) :
    ∃ v : Viewer,
      (joinSettle s uid (JoinResult.success mods)).1.windowPswp = some v ∧
      v.pluginClasses = mergePlugins s._pluginClasses mods := by
  cases hso : s.shouldOpen with
  | false =>
      rw [joinSettle_success_skip s uid mods hso] at h
      simp at h
  | true =>
      cases hmm : mainModuleOf mods with
      | none =>
          rw [joinSettle_success_nomain s uid mods hso hmm] at h
          simp at h
      | some m =>
          rw [joinSettle_success_open s uid mods m hso hmm] at h ⊢
          obtain ⟨v, hv1, _, hv3, _, _⟩ := openPhotoswipe_constructed_viewer _ m uid h
          exact ⟨v, hv1, by simpa using hv3⟩

/-! Lookup lemmas for the plugin registry. -/

lemma lookup_cons (a k : String) (v : PluginRef) (l : List (String × PluginRef)) :
    List.lookup a ((k, v) :: l) = if a = k then some v else List.lookup a l := by
  by_cases h : a = k
  · simp [List.lookup, h]
  · have hb : (a == k) = false := beq_eq_false_iff_ne.mpr h
    simp only [List.lookup, hb, if_neg h]

lemma lookup_setPlugin_self (k : String) (v : PluginRef) :
    ∀ reg : List (String × PluginRef), List.lookup k (setPlugin reg k v) = some v := by
  intro reg
  induction reg with
  | nil => simp [setPlugin, lookup_cons]
  | cons kv rest ih =>
      obtain ⟨k1, v1⟩ := kv
      rw [setPlugin]
      split
      · next heq =>
          subst heq
          rw [lookup_cons]
          simp
      · next hne =>
          rw [lookup_cons, if_neg (Ne.symm hne)]
          exact ih

lemma lookup_setPlugin_isSome (k k1 : String) (v1 : PluginRef) :
    ∀ reg : List (String × PluginRef), (List.lookup k reg).isSome = true →
      (List.lookup k (setPlugin reg k1 v1)).isSome = true := by
  intro reg
  induction reg with
  | nil =>
      intro h
      simp [List.lookup] at h
  | cons kv rest ih =>
      obtain ⟨k2, v2⟩ := kv
      intro h
      rw [lookup_cons] at h
      rw [setPlugin]
      split
      · next heq =>
          rw [lookup_cons]
          split at h
          · next hk => rw [if_pos hk]; rfl
          · next hk => rw [if_neg hk]; exact h
      · next hne =>
          rw [lookup_cons]
          split at h
          · next hk => rw [if_pos hk]; rfl
          · next hk => rw [if_neg hk]; exact ih h

lemma mergePlugins_lookup_isSome (k : String) :
    ∀ (mods : List JoinItem) (reg : List (String × PluginRef)),
      (List.lookup k reg).isSome = true →
      (List.lookup k (mergePlugins reg mods)).isSome = true := by
  intro mods
  induction mods with
  | nil => intro reg h; exact h
  | cons item rest ih =>
      intro reg h
      cases item with
      | pluginPair k1 v1 =>
          unfold mergePlugins
          split
          · exact ih _ (lookup_setPlugin_isSome k k1 v1 reg h)
          · exact ih _ h
      | mainModule m => exact ih _ h
      | unitResult => exact ih _ h

/-- A resolved and truthy `\x7bpluginKey, moduleClass\x7d` pair anywhere in the
settled join is present in the merged registry under its key. -/
lemma mergePlugins_writes (k : String) (v : PluginRef) :
    ∀ (mods : List JoinItem) (reg : List (String × PluginRef)),
      JoinItem.pluginPair k v ∈ mods → k ≠ "" → v.truthy = true →
      (List.lookup k (mergePlugins reg mods)).isSome = true := by
  intro mods
  induction mods with
  | nil => intro reg h; simp at h
  | cons item rest ih =>
      intro reg hmem hk hv
      rcases List.mem_cons.mp hmem with heq | hmem1
      · subst heq
        unfold mergePlugins
        split
        · apply mergePlugins_lookup_isSome
          rw [lookup_setPlugin_self]
          rfl
        · next hguard => exact absurd ⟨hk, hv⟩ hguard
      · cases item with
        | pluginPair k1 v1 =>
            unfold mergePlugins
            split
            · exact ih _ hmem1 hk hv
            · exact ih _ hmem1 hk hv
        | mainModule m => exact ih _ hmem1 hk hv
        | unitResult => exact ih _ hmem1 hk hv

/-! Index lemmas for the structural child search. -/

/-- In a duplicate-free node list, the first identity match of the element
sitting at position `n` is found at position `n` (shifted by the scan's
start offset). -/
lemma findIdx_of_get_nodup (c : Elem) :
    ∀ (l : List Elem) (n i : Nat), l.Nodup → l.get? n = some c →
      l.findIdx? (fun x => x = c) i = some (i + n) := by
  intro l
  induction l with
  | nil => intro n i _ hg; simp at hg
  | cons a l ih =>
      intro n i hnd hg
      cases n with
      | zero =>
          rw [List.get?_cons_zero] at hg
          injection hg with hg
          subst hg
          rw [List.findIdx?_cons]
          simp
      | succ n =>
          rw [List.get?_cons_succ] at hg
          have hcmem : c ∈ l := List.get?_mem hg
          have hane : ¬(a = c) := fun heq => (List.nodup_cons.mp hnd).1 (heq ▸ hcmem)
          rw [List.findIdx?_cons]
          simp only [decide_eq_false hane, Bool.false_eq_true, if_false,
            ih n (i + 1) (List.nodup_cons.mp hnd).2 hg]
          congr 1
          omega

/-- An element absent from the node list is never found. -/
lemma findIdx_of_not_mem (c : Elem) (l : List Elem) (h : c ∉ l) :
    l.findIdx? (fun x => x = c) = none := by
  rw [List.findIdx?_eq_none_iff]
  intro x hx
  simp only [decide_eq_false_iff_not]
  intro heq
  exact h (heq ▸ hx)

/-- The shape of the awaited join: main module first, then one import per
registry entry, then the custom open promise, the main stylesheet, and the
additional stylesheets — and nothing else. -/
lemma preload_promiseArray (s : State) (index : Int) (dataSource : Option DataSource) :
    (preload s index dataSource).promiseArray =
      [Acq.mainModule s.options.pswpModule] ++
        s._pluginClasses.map (fun kv => Acq.plugin kv.1 kv.2) ++
        (match s.options.openPromise with
         | some id => [Acq.openPromise id]
         | none => []) ++
        (match s.options.pswpCSS with
         | some href => if href = "" then [] else [Acq.css href]
         | none => []) ++
        s._additionalDynamicCSS.map Acq.css := by
  cases dataSource <;> rfl

/-! Further fixtures for the claim theorems. -/

/-- A state in which a second activation has advanced the token to 2 and the
developer has since cancelled via the public API (`shouldOpen = false`). -/
def c1State : State := { construct opts0 with _uid := 2, shouldOpen := false }

/-- A state mid-load: token 1 captured, `shouldOpen` still raised. -/
def c3State : State := { construct opts0 with _uid := 1, shouldOpen := true }

/-- A state whose global slot is occupied. -/
def c3occState : State := { construct opts0 with windowPswp := some viewer0 }

/-- An activation with the ctrl key held. -/
def eCtrl : Event :=
  { target := 0, currentTarget := 0, clientX := 10, clientY := 10, which := 1
    ctrlKey := true, metaKey := false, altKey := false, shiftKey := false }

/-! The claims. -/

/-- Claim C1: the claim (like the guard's own comment) asserts that every
`_openPhotoswipe` call whose token differs from the current `_uid`, or made
while `shouldOpen` is false, or while the global slot is occupied,
constructs no viewer and leaves the slot unchanged. The implemented guard
is `uid !== this._uid && this.shouldOpen`, so a call with a stale token
while `shouldOpen` is false slips past it: with current token 2,
`shouldOpen = false` and an empty slot, the call carrying stale token 1
constructs a viewer and publishes it into the slot. -/
theorem c1_stale_cancelled_call_constructs_viewer :
    (1 ≠ c1State._uid ∧ c1State.shouldOpen = false ∧ c1State.windowPswp = none) ∧
    (openPhotoswipe c1State (Module.ctorFn 7) 1).2 = true ∧
    ((openPhotoswipe c1State (Module.ctorFn 7) 1).1.windowPswp).isSome = true := by
  refine ⟨⟨by decide, rfl, rfl⟩, rfl, rfl⟩

/-- Claim C2 counterexample: `preload` itself never assigns `shouldOpen`.
Called on a fresh instance (where `shouldOpen` is falsy), it increments the
token yet leaves `shouldOpen` false, contradicting "every call to preload
sets shouldOpen = true". -/
theorem c2_preload_leaves_shouldOpen_false :
    (preload (construct opts0) 0 none).state.shouldOpen = false ∧
    (preload (construct opts0) 0 none).state._uid = 1 :=
  ⟨rfl, rfl⟩

/-- Claim C2 (amended): `preload` leaves `shouldOpen` exactly as it found
it; the assignment `shouldOpen = true` belongs to `loadAndOpen`, which
performs it before invoking `preload` — hence before the token increment
and before the join is awaited. -/
theorem c2_shouldOpen_set_by_loadAndOpen (s : State) (index : Int)
    (dataSource : Option DataSource) (initialPoint : Option Point) :
    (preload s index dataSource).state.shouldOpen = s.shouldOpen ∧
    (s.windowPswp = none →
      (loadAndOpen s index dataSource initialPoint).state =
        (preload { s with
                   options := { s.options with
                                index := index, initialPointerPos := initialPoint },
                   shouldOpen := true } index dataSource).state ∧
      (loadAndOpen s index dataSource initialPoint).state.shouldOpen = true) := by
  refine ⟨rfl, fun hslot => ?_⟩
  unfold loadAndOpen
  rw [if_neg (by simp [hslot])]
  exact ⟨rfl, rfl⟩

/-- Claim C2 witness: on a fresh instance `loadAndOpen` raises
`shouldOpen`. -/
theorem c2_shouldOpen_set_by_loadAndOpen_witness :
    (loadAndOpen (construct opts0) 3 none none).state.shouldOpen = true :=
  ((c2_shouldOpen_set_by_loadAndOpen (construct opts0) 3 none none).2 rfl).2

/-- Claim C3: across every turn, the global slot changes only when the
viewer's destroy handler clears it or when a settling join admits an open —
and an admitted open requires the slot to have been empty; moreover any
`_openPhotoswipe` call that constructs a viewer saw an empty slot, and the
slot is empty immediately after a destroy handler runs. -/
theorem c3_singleton_slot_invariant (env : Env) (s : State) (op : Op) :
    ((step env s op).windowPswp ≠ s.windowPswp →
      (op = Op.destroyNotifyOp ∧ (step env s op).windowPswp = none) ∨
      (∃ uid r, op = Op.joinSettleOp uid r ∧ s.windowPswp = none ∧
        ((step env s op).windowPswp).isSome = true)) ∧
    (∀ m uid, (openPhotoswipe s m uid).2 = true → s.windowPswp = none) ∧
    (destroyNotify s).windowPswp = none := by
  refine ⟨?_, fun m uid h => openPhotoswipe_constructed_slot_empty s m uid h, rfl⟩
  intro hch
  cases op with
  | click e => exact absurd (onThumbnailsClick_windowPswp env.dom env.onLine s e) hch
  | loadAndOpenOp i d p => exact absurd (loadAndOpen_windowPswp s i d p) hch
  | preloadOp i d => exact absurd rfl hch
  | joinSettleOp uid r =>
      rcases joinSettle_slot s uid r with h | ⟨h1, h2⟩
      · exact absurd h hch
      · exact Or.inr ⟨uid, r, rfl, h1, h2⟩
  | destroyNotifyOp => exact Or.inl ⟨rfl, rfl⟩
  | addPluginOp n c => exact absurd rfl hch
  | addCSSOp h2 => exact absurd rfl hch
  | destroyOp => exact absurd rfl hch

/-- Claim C3 witness: an admitted gate call on a mid-load state proves its
slot empty, and on an occupied state the only slot change a turn can make
is the destroy handler clearing it. -/
theorem c3_singleton_slot_invariant_witness :
    c3State.windowPswp = none ∧
    ((Op.destroyNotifyOp = Op.destroyNotifyOp ∧
        (step env0 c3occState Op.destroyNotifyOp).windowPswp = none) ∨
      (∃ uid r, Op.destroyNotifyOp = Op.joinSettleOp uid r ∧ c3occState.windowPswp = none ∧
        ((step env0 c3occState Op.destroyNotifyOp).windowPswp).isSome = true)) := by
  constructor
  · exact (c3_singleton_slot_invariant env0 c3State Op.destroyNotifyOp).2.1
      (Module.ctorFn 7) 1 rfl
  · exact (c3_singleton_slot_invariant env0 c3occState Op.destroyNotifyOp).1
      (by simp [step, destroyNotify, c3occState])

/-- Claim C4: an activation with a modifier/special key held, or while the
global slot is occupied, or while the runtime reports offline, is a pure
pass-through: the handler returns the state untouched (in particular the
load token), calls no `preventDefault`, and starts no acquisition. -/
theorem c4_activation_passthrough (dom : Dom) (onLine : Option Bool) (s : State)
    (e : Event)
    (h : specialKeyUsed e = true ∨ s.windowPswp.isSome = true ∨ onLine = some false) :
    onThumbnailsClick dom onLine s e =
      { state := s, preventDefaultCalled := false, started := [] } ∧
    (onThumbnailsClick dom onLine s e).state._uid = s._uid := by
  have hc : (specialKeyUsed e || s.windowPswp.isSome || (onLine == some false)) = true := by
    rcases h with h | h | h <;> simp [h]
  constructor
  · unfold onThumbnailsClick
    rw [if_pos hc]
  · unfold onThumbnailsClick
    rw [if_pos hc]

/-- Claim C4 witness: a ctrl-click on a fresh instance passes through. -/
theorem c4_activation_passthrough_witness :
    onThumbnailsClick dom0 (some true) (construct opts0) eCtrl =
      { state := construct opts0, preventDefaultCalled := false, started := [] } :=
  (c4_activation_passthrough dom0 (some true) (construct opts0) eCtrl (Or.inl rfl)).1

/-- Claim C5: with no custom resolver and no child selector the Index
Resolver returns 0 unconditionally; with a child selector, when the nearest
matching ancestor-or-self of the target sits at position `n` of the
container's matching descendants it returns `n`; when nothing matches it
returns `undefined` (`none`) — and, being a total function, it never
throws. -/
theorem c5_getClickedIndex_resolution (dom : Dom) (s : State) (e : Event)
    (hfn : s.options.getClickedIndexFn = none) :
    (s.options.childSelector = none → getClickedIndex dom s e = some 0) ∧
    (∀ sel c n, s.options.childSelector = some sel → sel ≠ "" →
      dom.closest e.target sel = some c →
      (dom.querySelectorAll e.currentTarget sel).Nodup →
      (dom.querySelectorAll e.currentTarget sel).get? n = some c →
      getClickedIndex dom s e = some (Int.ofNat n)) ∧
    (∀ sel, s.options.childSelector = some sel → sel ≠ "" →
      (dom.closest e.target sel = none ∨
        (∃ c, dom.closest e.target sel = some c ∧
          c ∉ dom.querySelectorAll e.currentTarget sel)) →
      getClickedIndex dom s e = none) := by
  unfold getClickedIndex
  simp only [hfn]
  refine ⟨?_, ?_, ?_⟩
  · intro hcs
    simp only [hcs]
  · intro sel c n hcs hne hclosest hnodup hget
    simp only [hcs]
    rw [if_neg hne]
    simp only [hclosest]
    rw [findIdx_of_get_nodup c _ n 0 hnodup hget]
    simp
  · intro sel hcs hne hnm
    simp only [hcs]
    rw [if_neg hne]
    rcases hnm with h | ⟨c, hc, hcnm⟩
    · simp only [h]
    · simp only [hc]
      rw [findIdx_of_not_mem c _ hcnm]
      rfl

/-- A gallery whose second matching child (position 1) is the clicked one. -/
def dom5 : Dom :=
  { closest := fun _ _ => some 11, querySelectorAll := fun _ _ => [10, 11, 12] }

/-- A gallery whose clicked child is not among the matching descendants. -/
def dom5miss : Dom :=
  { closest := fun _ _ => some 99, querySelectorAll := fun _ _ => [10, 11, 12] }

/-- A configuration with a child selector. -/
def s5 : State := construct { pswpModule := Module.ctorFn 7, childSelector := some "li" }

/-- A plain activation event. -/
def e5 : Event :=
  { target := 4, currentTarget := 5, clientX := 10, clientY := 10, which := 1
    ctrlKey := false, metaKey := false, altKey := false, shiftKey := false }

/-- Claim C5 witness: the three resolution branches on concrete inputs. -/
theorem c5_getClickedIndex_resolution_witness :
    getClickedIndex dom0 (construct opts0) e5 = some 0 ∧
    getClickedIndex dom5 s5 e5 = some (Int.ofNat 1) ∧
    getClickedIndex dom5miss s5 e5 = none := by
  refine ⟨?_, ?_, ?_⟩
  · exact (c5_getClickedIndex_resolution dom0 (construct opts0) e5 rfl).1 rfl
  · exact (c5_getClickedIndex_resolution dom5 s5 e5 rfl).2.1 "li" 11 1 rfl (by decide)
      rfl (by decide) rfl
  · exact (c5_getClickedIndex_resolution dom5miss s5 e5 rfl).2.2 "li" rfl (by decide)
      (Or.inr ⟨99, rfl, by decide⟩)

/-- Claim C6: every `preload` call increments the token exactly once and
captures the incremented value, and across any run of turns the captured
tokens are strictly increasing — each is strictly greater than every token
captured earlier on that instance. -/
theorem c6_token_monotonicity (env : Env) (s : State) (index : Int)
    (dataSource : Option DataSource) (ops : List Op) :
    (preload s index dataSource).uid = s._uid + 1 ∧
    (preload s index dataSource).state._uid = s._uid + 1 ∧
    List.Pairwise (· < ·) (capturedTokens env s ops) :=
  ⟨rfl, rfl, capturedTokens_pairwise env ops s⟩

/-- Claim C7: when the `Promise.all` join rejects, the registered
continuation never runs — no rejection handler exists — so no viewer is
constructed, the state (slot, `pswp`, `shouldOpen`, registry, token) is
untouched, and no retry or reset happens. -/
theorem c7_join_rejection_noop (s : State) (uid : Nat) :
    joinSettle s uid JoinResult.failure = (s, false) ∧
    (joinSettle s uid JoinResult.failure).1.shouldOpen = s.shouldOpen ∧
    (joinSettle s uid JoinResult.failure).1.windowPswp = s.windowPswp ∧
    (joinSettle s uid JoinResult.failure).1.pswp = s.pswp :=
  ⟨rfl, rfl, rfl, rfl⟩

/-- Claim C8: a successfully settled join — with any token, stale or
current, and whatever `shouldOpen` holds — first merges every resolved
`\x7bpluginKey, moduleClass\x7d` pair into the registry; each such pair is then
present under its name; and any viewer the Open Gate goes on to construct
already carries the merged registry. -/
theorem c8_plugin_writeback (s : State) (uid : Nat) (mods : List JoinItem) :
    (joinSettle s uid (JoinResult.success mods)).1._pluginClasses =
      mergePlugins s._pluginClasses mods ∧
    (∀ k v, JoinItem.pluginPair k v ∈ mods → k ≠ "" → v.truthy = true →
      (List.lookup k
        ((joinSettle s uid (JoinResult.success mods)).1._pluginClasses)).isSome = true) ∧
    ((joinSettle s uid (JoinResult.success mods)).2 = true →
      ∃ viewer : Viewer,
        (joinSettle s uid (JoinResult.success mods)).1.windowPswp = some viewer ∧
        viewer.pluginClasses = mergePlugins s._pluginClasses mods) := by
  refine ⟨joinSettle_pluginClasses s uid mods, ?_, joinSettle_constructed_viewer s uid mods⟩
  intro k v hmem hk hv
  rw [joinSettle_pluginClasses s uid mods]
  exact mergePlugins_writes k v mods s._pluginClasses hmem hk hv

/-- A stale, cancelled context: current token 5, `shouldOpen` lowered. -/
def c8State : State := { construct opts0 with _uid := 5, shouldOpen := false }

/-- A join result carrying a resolved plugin pair. -/
def c8Mods : List JoinItem :=
  [JoinItem.mainModule (Module.ctorFn 7), JoinItem.pluginPair "zoom" (PluginRef.cls 3)]

/-- Claim C8 witness: a superseded join (token 1 against current token 5,
`shouldOpen` false) still lands its resolved plugin in the registry. -/
theorem c8_plugin_writeback_witness :
    (List.lookup "zoom"
      ((joinSettle c8State 1 (JoinResult.success c8Mods)).1._pluginClasses)).isSome = true :=
  (c8_plugin_writeback c8State 1 c8Mods).2.1 "zoom" (PluginRef.cls 3)
    (by decide) (by decide) rfl

/-- Claim C9: the first-slide warm-up is started exactly when
`preloadFirstSlide !== false` and the index is nonnegative, and it is never
an element of the awaited join, so admission cannot depend on it. -/
theorem c9_warmup_fire_and_forget (s : State) (index : Int)
    (dataSource : Option DataSource) :
    ((preload s index dataSource).warmupStarted = true ↔
      (s.options.preloadFirstSlide ≠ some false ∧ 0 ≤ index)) ∧
    (∀ j : Int, Acq.warmup j ∉ (preload s index dataSource).promiseArray) := by
  constructor
  · cases dataSource <;> simp [preload]
  · intro j hmem
    rw [preload_promiseArray] at hmem
    rcases List.mem_append.mp hmem with hmem | h5
    rcases List.mem_append.mp hmem with hmem | h4
    rcases List.mem_append.mp hmem with hmem | h3
    rcases List.mem_append.mp hmem with h1 | h2
    · simp at h1
    · simp at h2
    · cases hop : s.options.openPromise <;> rw [hop] at h3 <;> simp at h3
    · cases hcss : s.options.pswpCSS with
      | none => rw [hcss] at h4; simp at h4
      | some href =>
          rw [hcss] at h4
          dsimp only at h4
          split at h4 <;> simp at h4
    · simp at h5

/-- A configuration with the warm-up explicitly disabled. -/
def c9offState : State :=
  construct { pswpModule := Module.ctorFn 7, preloadFirstSlide := some false }

/-- Claim C9 witness: on a default configuration the warm-up starts for
index 2 but is absent from the join; with `preloadFirstSlide: false` it
does not start. -/
theorem c9_warmup_fire_and_forget_witness :
    (preload (construct opts0) 2 none).warmupStarted = true ∧
    Acq.warmup 2 ∉ (preload (construct opts0) 2 none).promiseArray ∧
    (preload c9offState 2 none).warmupStarted = false := by
  refine ⟨?_, ?_, ?_⟩
  · exact (c9_warmup_fire_and_forget (construct opts0) 2 none).1.mpr
      ⟨by decide, by decide⟩
  · exact (c9_warmup_fire_and_forget (construct opts0) 2 none).2 2
  · have h := (c9_warmup_fire_and_forget c9offState 2 none).1
    exact Bool.eq_false_iff.mpr (fun htrue => (h.mp htrue).1 rfl)

/-- Claim C10: `loadAndOpen` returns false and does nothing at all when the
global slot is occupied; otherwise it stores the index and pointer
position, raises `shouldOpen`, hands off to `preload` (starting its
acquisitions), and returns true. -/
theorem c10_loadAndOpen_contract (s : State) (index : Int)
    (dataSource : Option DataSource) (initialPoint : Option Point) :
    (∀ v, s.windowPswp = some v →
      loadAndOpen s index dataSource initialPoint =
        { state := s, returned := false, started := [] }) ∧
    (s.windowPswp = none →
      (loadAndOpen s index dataSource initialPoint).returned = true ∧
      (loadAndOpen s index dataSource initialPoint).state.shouldOpen = true ∧
      (loadAndOpen s index dataSource initialPoint).state.options.index = index ∧
      (loadAndOpen s index dataSource initialPoint).state.options.initialPointerPos
        = initialPoint ∧
      (loadAndOpen s index dataSource initialPoint).state =
        (preload { s with
                   options := { s.options with
                                index := index, initialPointerPos := initialPoint },
                   shouldOpen := true } index dataSource).state ∧
      (loadAndOpen s index dataSource initialPoint).started =
        (preload { s with
                   options := { s.options with
                                index := index, initialPointerPos := initialPoint },
                   shouldOpen := true } index dataSource).promiseArray ++
          (if (preload { s with
                         options := { s.options with
                                      index := index, initialPointerPos := initialPoint },
                         shouldOpen := true } index dataSource).warmupStarted
           then [Acq.warmup index] else [])) := by
  constructor
  · intro v hv
    unfold loadAndOpen
    rw [if_pos (by simp [hv])]
  · intro hslot
    unfold loadAndOpen
    rw [if_neg (by simp [hslot])]
    refine ⟨rfl, rfl, ?_, ?_, rfl, rfl⟩
    · exact (preload_state_options_index _ index dataSource).trans rfl
    · exact (preload_state_options_initialPointerPos _ index dataSource).trans rfl

/-- A state with the slot occupied, for the rejection branch. -/
def c10occState : State := { construct opts0 with windowPswp := some viewer0 }

/-- Claim C10 witness: both branches on concrete states. -/
theorem c10_loadAndOpen_contract_witness :
    loadAndOpen c10occState 1 none none =
      { state := c10occState, returned := false, started := [] } ∧
    (loadAndOpen (construct opts0) 1 none none).returned = true ∧
    (loadAndOpen (construct opts0) 1 none none).state.shouldOpen = true :=
  ⟨(c10_loadAndOpen_contract c10occState 1 none none).1 viewer0 rfl,
   ((c10_loadAndOpen_contract (construct opts0) 1 none none).2 rfl).1,
   ((c10_loadAndOpen_contract (construct opts0) 1 none none).2 rfl).2.1⟩

end PhotoSwipeLightbox
